import Mathlib

/-!
Verification of the Schema.org JSON-LD builders in
`src/golf_course_schema.py` (bay-area-golf-times).

The file shallowly embeds the four builder classes
(`GolfCourseSchema`, `ReviewSchema`, `BreadcrumbSchema`,
`TeeTimeEventSchema`).  Python dicts produced by `to_json` are modelled
as ordered association lists inside a small JSON value type; Python
ints are `Int`, Python floats are exact rationals `ℚ` (every literal in
the repository is a finite decimal), and `None`-able parameters are
`Option`s.  Python truthiness tests (`if self.course_specs.get("par")`)
become explicit zero/empty tests on these types.
-/

/-- JSON values as produced by the Python builders.  `int` and `float`
are kept apart because Python serializes them differently (`72` vs
`76.5`). -/
inductive Json where
  | str : String → Json
  | int : Int → Json
  | float : ℚ → Json
  | arr : List Json → Json
  | obj : List (String × Json) → Json
deriving Repr

/-- First-match lookup in an ordered field list (Python dict access). -/
def lookupFields : List (String × Json) → String → Option Json
  | [], _ => none
  | (k', v) :: rest, k => if k' = k then some v else lookupFields rest k

/-- Look a key up in a JSON object; `none` on non-objects. -/
def Json.lookup : Json → String → Option Json
  | .obj fields, k => lookupFields fields k
  | _, _ => none

/-- Length of a JSON array; 0 on non-arrays. -/
def Json.arrLen : Json → Nat
  | .arr l => l.length
  | _ => 0

/-- A Python number: either an `int` or a `float`.  `ReviewSchema`
initializes `rating_value` with the int literal `0` and
`set_aggregate_rating` may store a float, so the field genuinely holds
either type at runtime. -/
inductive PyNum where
  | int : Int → PyNum
  | float : ℚ → PyNum
deriving Repr

/-- Left-pad a digit string with zeros up to width `k`. -/
def padZeros (s : String) (k : Nat) : String :=
  String.mk (List.replicate (k - s.length) '0') ++ s

/-- Smallest exponent `k < 30` with `d ∣ 10 ^ k` (0 if none): the number
of decimal digits needed for a fraction with denominator `d`. -/
def fracExp (d : Nat) : Nat :=
  (((List.range 30).filter (fun k => 10 ^ k % d = 0)).headD 0)

/-- Python `str()` on a float, for finite decimal values: sign, integer
part, decimal point, fractional digits (at least one, so `str(185.0)`
is `"185.0"`). -/
def pyFloatStr (q : ℚ) : String :=
  let k := fracExp q.den
  let scaled : Int := q.num * (10 : Int) ^ k / (q.den : Int)
  let a := scaled.natAbs
  (if scaled < 0 then "-" else "")
    ++ toString (a / 10 ^ k) ++ "."
    ++ (if k = 0 then "0" else padZeros (toString (a % 10 ^ k)) k)

/-- Python `str()` on a number of either type. -/
def PyNum.str : PyNum → String
  | .int n => toString n
  | .float q => pyFloatStr q

/-- Python truthiness of an int-or-None value (`None` and `0` are
falsy). -/
def truthyOptInt : Option Int → Bool
  | none => false
  | some n => n != 0

/-- Python truthiness of a str-or-None value (`None` and `""` are
falsy). -/
def truthyOptStr : Option String → Bool
  | none => false
  | some s => s != ""

/-- The dict stored by `GolfCourseSchema.set_course_specs`: the four
required numbers plus the three `None`-defaulted optionals. -/
structure CourseSpecs where
  par : Int
  holes : Int
  rating : ℚ
  slope : Int
  length_yards : Option Int
  architect : Option String
  established : Option Int
deriving Repr

/-- State of a `GolfCourseSchema` builder.  `course_specs` is the
Python dict: `none` is the initial `{}`, `some s` the full record
written by `set_course_specs` (the only writer always sets all seven
keys). -/
structure GolfCourseSchema where
  name : String
  url : String
  telephone : String
  email : String
  street_address : String
  city : String
  state : String
  postal_code : String
  latitude : ℚ
  longitude : ℚ
  images : List String
  opening_hours : List Json
  amenities : List String
  course_specs : Option CourseSpecs
  social_profiles : List String
deriving Repr

/-- `GolfCourseSchema.__init__`: required identity fields, empty
collections. -/
def GolfCourseSchema.init (name url telephone email street_address city state postal_code : String)
    (latitude longitude : ℚ) : GolfCourseSchema :=
  { name := name, url := url, telephone := telephone, email := email,
    street_address := street_address, city := city, state := state,
    postal_code := postal_code, latitude := latitude, longitude := longitude,
    images := [], opening_hours := [], amenities := [],
    course_specs := none, social_profiles := [] }

/-- `add_image`: append an image URL. -/
def GolfCourseSchema.add_image (c : GolfCourseSchema) (image_url : String) : GolfCourseSchema :=
  { c with images := c.images ++ [image_url] }

/-- `add_opening_hours`: append an OpeningHoursSpecification dict. -/
def GolfCourseSchema.add_opening_hours (c : GolfCourseSchema)
    (day_of_week : List String) (opens closes : String) : GolfCourseSchema :=
  { c with opening_hours := c.opening_hours ++
      [Json.obj [("@type", .str "OpeningHoursSpecification"),
                 ("dayOfWeek", .arr (day_of_week.map .str)),
                 ("opens", .str opens),
                 ("closes", .str closes)]] }

/-- `add_amenity`: append an amenity name. -/
def GolfCourseSchema.add_amenity (c : GolfCourseSchema) (amenity_name : String) : GolfCourseSchema :=
  { c with amenities := c.amenities ++ [amenity_name] }

/-- `set_course_specs`: overwrite the whole specs dict. -/
def GolfCourseSchema.set_course_specs (c : GolfCourseSchema)
    (par holes : Int) (rating : ℚ) (slope : Int)
    (length_yards : Option Int) (architect : Option String)
    (established : Option Int) : GolfCourseSchema :=
  { c with course_specs := some ⟨par, holes, rating, slope, length_yards, architect, established⟩ }

/-- `add_social_profile`: append a social profile URL. -/
def GolfCourseSchema.add_social_profile (c : GolfCourseSchema) (profile_url : String) : GolfCourseSchema :=
  { c with social_profiles := c.social_profiles ++ [profile_url] }

/-- `build_address`: the PostalAddress sub-object. -/
def GolfCourseSchema.build_address (c : GolfCourseSchema) : Json :=
  .obj [("@type", .str "PostalAddress"),
        ("streetAddress", .str c.street_address),
        ("addressLocality", .str c.city),
        ("addressRegion", .str c.state),
        ("postalCode", .str c.postal_code),
        ("addressCountry", .str "US")]

/-- `build_geo`: the GeoCoordinates sub-object. -/
def GolfCourseSchema.build_geo (c : GolfCourseSchema) : Json :=
  .obj [("@type", .str "GeoCoordinates"),
        ("latitude", .float c.latitude),
        ("longitude", .float c.longitude)]

/-- `build_amenities`: wrap each amenity as a
LocationFeatureSpecification. -/
def GolfCourseSchema.build_amenities (c : GolfCourseSchema) : List Json :=
  c.amenities.map (fun amenity =>
    .obj [("@type", .str "LocationFeatureSpecification"),
          ("name", .str amenity)])

/-- A PropertyValue entry of the `additionalProperty` array. -/
def propertyValue (name value : String) : Json :=
  .obj [("@type", .str "PropertyValue"),
        ("name", .str name),
        ("value", .str value)]

/-- `build_course_properties`: iterate the specs in the fixed source
order, emitting an entry only when the underlying Python value is
truthy (`.get(...)` on the empty dict yields `None`, hence `[]` in the
`none` case). -/
def GolfCourseSchema.build_course_properties (c : GolfCourseSchema) : List Json :=
  match c.course_specs with
  | none => []
  | some s =>
      (if s.par ≠ 0 then [propertyValue "Par" (toString s.par)] else [])
      ++ (if s.holes ≠ 0 then [propertyValue "Holes" (toString s.holes)] else [])
      ++ (if truthyOptInt s.length_yards then
            [propertyValue "Length" (toString (s.length_yards.getD 0)),
             propertyValue "Length Unit" "yards"]
          else [])
      ++ (if s.rating ≠ 0 then [propertyValue "Course Rating" (pyFloatStr s.rating)] else [])
      ++ (if s.slope ≠ 0 then [propertyValue "Slope Rating" (toString s.slope)] else [])
      ++ (if truthyOptStr s.architect then
            [propertyValue "Course Architect" (s.architect.getD "")] else [])
      ++ (if truthyOptInt s.established then
            [propertyValue "Established" (toString (s.established.getD 0))] else [])

/-- The conditional `image` field: absent when no image, the bare
string when exactly one, the ordered list otherwise. -/
def imagePart (images : List String) : List (String × Json) :=
  match images with
  | [] => []
  | [u] => [("image", .str u)]
  | us => [("image", .arr (us.map .str))]

/-- The conditional `openingHoursSpecification` field. -/
def hoursPart (opening_hours : List Json) : List (String × Json) :=
  if opening_hours.isEmpty then [] else
    [("openingHoursSpecification", .arr opening_hours)]

/-- The conditional `amenityFeature` field. -/
def amenitiesPart (c : GolfCourseSchema) : List (String × Json) :=
  if c.amenities.isEmpty then [] else
    [("amenityFeature", .arr c.build_amenities)]

/-- The conditional `additionalProperty` field: present exactly when
the specs dict is non-empty. -/
def propsPart (c : GolfCourseSchema) : List (String × Json) :=
  match c.course_specs with
  | none => []
  | some _ => [("additionalProperty", .arr c.build_course_properties)]

/-- The conditional `sameAs` field. -/
def socialPart (profiles : List String) : List (String × Json) :=
  if profiles.isEmpty then [] else [("sameAs", .arr (profiles.map .str))]

/-- The eight unconditional fields of `GolfCourseSchema.to_json`. -/
def golfBase (c : GolfCourseSchema) : List (String × Json) :=
  [("@context", .str "https://schema.org"),
   ("@type", .arr [.str "LocalBusiness", .str "GolfCourse"]),
   ("name", .str c.name),
   ("url", .str c.url),
   ("telephone", .str c.telephone),
   ("email", .str c.email),
   ("address", c.build_address),
   ("geo", c.build_geo)]

/-- `GolfCourseSchema.to_json`: the fixed base fields followed by the
optional fields in source order. -/
def GolfCourseSchema.to_json (c : GolfCourseSchema) : Json :=
  .obj (golfBase c
        ++ imagePart c.images
        ++ hoursPart c.opening_hours
        ++ amenitiesPart c
        ++ propsPart c
        ++ socialPart c.social_profiles)

/-- The Python method reads `self` and returns a fresh dict without
assigning to any attribute: as a state transformer it returns the state
unchanged next to the result. -/
def GolfCourseSchema.to_json_run (c : GolfCourseSchema) : GolfCourseSchema × Json :=
  (c, c.to_json)

/-- The float literal `76.5`, as the exact rational 153/2. -/
def dec765 : ℚ := ⟨153, 2, by decide, by decide⟩

/-- The float literal `4.9`, as the exact rational 49/10. -/
def dec49 : ℚ := ⟨49, 10, by decide, by decide⟩

/-- State of a `ReviewSchema` builder.  `rating_value` starts as the
int `0` and may later hold a float, hence `PyNum`. -/
structure ReviewSchema where
  course_name : String
  course_url : String
  course_image : String
  reviews : List Json
  rating_value : PyNum
  rating_count : Int
deriving Repr

/-- `ReviewSchema.__init__`. -/
def ReviewSchema.init (course_name course_url course_image : String) : ReviewSchema :=
  { course_name := course_name, course_url := course_url,
    course_image := course_image, reviews := [],
    rating_value := .int 0, rating_count := 0 }

/-- `add_review`: append a Review dict with a nested Rating carrying
fixed bounds and the stringified rating. -/
def ReviewSchema.add_review (r : ReviewSchema)
    (headline body : String) (rating : Int)
    (date_published author_name : String) : ReviewSchema :=
  { r with reviews := r.reviews ++
      [Json.obj [("@type", .str "Review"),
                 ("headline", .str headline),
                 ("reviewBody", .str body),
                 ("reviewRating", .obj
                   [("@type", .str "Rating"),
                    ("ratingValue", .str (toString rating)),
                    ("bestRating", .str "5"),
                    ("worstRating", .str "1")]),
                 ("datePublished", .str date_published),
                 ("author", .obj
                   [("@type", .str "Person"),
                    ("name", .str author_name)])]] }

/-- `set_aggregate_rating`: overwrite both aggregate fields. -/
def ReviewSchema.set_aggregate_rating (r : ReviewSchema)
    (rating_value : PyNum) (rating_count : Int) : ReviewSchema :=
  { r with rating_value := rating_value, rating_count := rating_count }

/-- The `aggregateRating` sub-object of `ReviewSchema.to_json`. -/
def ReviewSchema.build_aggregate (r : ReviewSchema) : Json :=
  .obj [("@type", .str "AggregateRating"),
        ("ratingValue", .str r.rating_value.str),
        ("bestRating", .str "5"),
        ("worstRating", .str "1"),
        ("ratingCount", .int r.rating_count),
        ("reviewCount", .int (r.reviews.length : Int))]

/-- `ReviewSchema.to_json`: base fields, the aggregate, and the
`review` list only when non-empty. -/
def ReviewSchema.to_json (r : ReviewSchema) : Json :=
  .obj ([("@context", .str "https://schema.org"),
         ("@type", .str "LocalBusiness"),
         ("name", .str r.course_name),
         ("url", .str r.course_url),
         ("image", .str r.course_image),
         ("aggregateRating", r.build_aggregate)]
        ++ (if r.reviews.isEmpty then [] else [("review", Json.arr r.reviews)]))

/-- `ReviewSchema.to_json` as a state transformer: no attribute is
assigned in the Python body, so the state is returned unchanged. -/
def ReviewSchema.to_json_run (r : ReviewSchema) : ReviewSchema × Json :=
  (r, r.to_json)

/-- State of a `BreadcrumbSchema` builder: the stored ListItem dicts. -/
structure BreadcrumbSchema where
  items : List Json
deriving Repr

/-- `BreadcrumbSchema.__init__`. -/
def BreadcrumbSchema.init : BreadcrumbSchema := { items := [] }

/-- The ListItem dict built by `add_item` for a given position:
`item` is included only when the url is truthy. -/
def breadcrumbItem (position : Int) (name : String) (url : Option String) : Json :=
  .obj ([("@type", Json.str "ListItem"),
         ("position", Json.int position),
         ("name", Json.str name)]
        ++ (if truthyOptStr url then [("item", Json.str (url.getD ""))] else []))

/-- `add_item`: position is the stored-item count plus one, computed at
add time and stored in the item. -/
def BreadcrumbSchema.add_item (b : BreadcrumbSchema)
    (name : String) (url : Option String) : BreadcrumbSchema :=
  { b with items := b.items ++
      [breadcrumbItem ((b.items.length : Int) + 1) name url] }

/-- `BreadcrumbSchema.to_json`. -/
def BreadcrumbSchema.to_json (b : BreadcrumbSchema) : Json :=
  .obj [("@context", .str "https://schema.org"),
        ("@type", .str "BreadcrumbList"),
        ("itemListElement", .arr b.items)]

/-- `BreadcrumbSchema.to_json` as a state transformer: the Python body
assigns no attribute. -/
def BreadcrumbSchema.to_json_run (b : BreadcrumbSchema) : BreadcrumbSchema × Json :=
  (b, b.to_json)

/-- State of a `TeeTimeEventSchema` builder.  The organizer url/phone
start as `""` and `set_organizer` may store `None`, hence
`Option String` with `some ""` for the initial empty string. -/
structure TeeTimeEventSchema where
  name : String
  start_date : String
  end_date : String
  location_name : String
  location_address : Json
  price : ℚ
  currency : String
  availability : String
  organizer_name : String
  organizer_url : Option String
  organizer_phone : Option String
deriving Repr

/-- `TeeTimeEventSchema.__init__` (currency defaults to "USD" at call
sites; the parameter is explicit here). -/
def TeeTimeEventSchema.init (name start_date end_date location_name : String)
    (location_address : Json) (price : ℚ) (currency : String) : TeeTimeEventSchema :=
  { name := name, start_date := start_date, end_date := end_date,
    location_name := location_name, location_address := location_address,
    price := price, currency := currency,
    availability := "InStock",
    organizer_name := "", organizer_url := some "", organizer_phone := some "" }

/-- `set_availability`: store the state string, unvalidated. -/
def TeeTimeEventSchema.set_availability (t : TeeTimeEventSchema)
    (availability : String) : TeeTimeEventSchema :=
  { t with availability := availability }

/-- `set_organizer`: overwrite all three organizer fields. -/
def TeeTimeEventSchema.set_organizer (t : TeeTimeEventSchema)
    (name : String) (url phone : Option String) : TeeTimeEventSchema :=
  { t with organizer_name := name, organizer_url := url, organizer_phone := phone }

/-- The organizer dict of `to_json`: name always present, url/phone
only when truthy. -/
def TeeTimeEventSchema.build_organizer (t : TeeTimeEventSchema) : Json :=
  .obj ([("@type", Json.str "Organization"),
         ("name", Json.str t.organizer_name)]
        ++ (if truthyOptStr t.organizer_url then
              [("url", Json.str (t.organizer_url.getD ""))] else [])
        ++ (if truthyOptStr t.organizer_phone then
              [("telephone", Json.str (t.organizer_phone.getD ""))] else []))

/-- `TeeTimeEventSchema.to_json`. -/
def TeeTimeEventSchema.to_json (t : TeeTimeEventSchema) : Json :=
  .obj [("@context", .str "https://schema.org"),
        ("@type", .str "SportsEvent"),
        ("name", .str t.name),
        ("startDate", .str t.start_date),
        ("endDate", .str t.end_date),
        ("eventStatus", .str "https://schema.org/EventScheduled"),
        ("eventAttendanceMode", .str "https://schema.org/OfflineEventAttendanceMode"),
        ("location", .obj
          [("@type", .str "GolfCourse"),
           ("name", .str t.location_name),
           ("address", t.location_address)]),
        ("offers", .obj
          [("@type", .str "Offer"),
           ("price", .str (pyFloatStr t.price)),
           ("priceCurrency", .str t.currency),
           ("availability", .str ("https://schema.org/" ++ t.availability))]),
        ("organizer", t.build_organizer)]

/-- `TeeTimeEventSchema.to_json` as a state transformer: the Python
body assigns no attribute of `self`. -/
def TeeTimeEventSchema.to_json_run (t : TeeTimeEventSchema) : TeeTimeEventSchema × Json :=
  (t, t.to_json)

/-- Name of a PropertyValue-like JSON object, if any. -/
def jsonName (j : Json) : Option String :=
  match j with
  | .obj fields =>
      match lookupFields fields "name" with
      | some (.str s) => some s
      | _ => none
  | _ => none

/-- The names of the entries of a property list, in order. -/
def propNames (l : List Json) : List String :=
  l.filterMap jsonName

/-- A field of the `aggregateRating` sub-object of a serialized
`ReviewSchema`. -/
def aggField (r : ReviewSchema) (k : String) : Option Json :=
  (Json.lookup r.to_json "aggregateRating").bind (fun j => Json.lookup j k)

/-- The spec's end-to-end example: name "Pine Valley Golf Club", one
amenity "Pro Shop", specs par 72, holes 18, rating 76.5, slope 147,
optionals unset. -/
def pineValley : GolfCourseSchema :=
  ((GolfCourseSchema.init "Pine Valley Golf Club"
      "https://example.com/courses/pine-valley" "+1-609-465-3886"
      "reservations@pinevalley.com" "123 Fairway Drive" "Pine Valley" "NJ"
      "08021" 39 (-74)).add_amenity "Pro Shop").set_course_specs
    72 18 dec765 147 none none none

theorem lookupFields_append_left_none {l₁ : List (String × Json)}
    (l₂ : List (String × Json)) (k : String)
    (h : lookupFields l₁ k = none) :
    lookupFields (l₁ ++ l₂) k = lookupFields l₂ k := by
  induction l₁ with
  | nil => rfl
  | cons p rest ih =>
      obtain ⟨k', v⟩ := p
      by_cases hk : k' = k
      · simp [lookupFields, hk] at h
      · simp only [lookupFields, hk, if_neg hk, List.cons_append] at h ⊢
        exact ih h

theorem lookupFields_append_left_some {l₁ : List (String × Json)}
    (l₂ : List (String × Json)) (k : String) (v : Json)
    (h : lookupFields l₁ k = some v) :
    lookupFields (l₁ ++ l₂) k = some v := by
  induction l₁ with
  | nil => simp [lookupFields] at h
  | cons p rest ih =>
      obtain ⟨k', w⟩ := p
      by_cases hk : k' = k
      · simp only [lookupFields, if_pos hk] at h
        simp [lookupFields, hk, h]
      · simp only [lookupFields, if_neg hk, List.cons_append] at h ⊢
        exact ih h

theorem lookupFields_imagePart (images : List String) (k : String) (h : k ≠ "image") :
    lookupFields (imagePart images) k = none := by
  match images with
  | [] => rfl
  | [u] => simp [imagePart, lookupFields, Ne.symm h]
  | u :: v :: rest => simp [imagePart, lookupFields, Ne.symm h]

theorem lookupFields_hoursPart (oh : List Json) (k : String)
    (h : k ≠ "openingHoursSpecification") :
    lookupFields (hoursPart oh) k = none := by
  unfold hoursPart
  split <;> simp [lookupFields, Ne.symm h]

theorem lookupFields_amenitiesPart (c : GolfCourseSchema) (k : String)
    (h : k ≠ "amenityFeature") :
    lookupFields (amenitiesPart c) k = none := by
  unfold amenitiesPart
  split <;> simp [lookupFields, Ne.symm h]

theorem lookupFields_propsPart (c : GolfCourseSchema) (k : String)
    (h : k ≠ "additionalProperty") :
    lookupFields (propsPart c) k = none := by
  unfold propsPart
  split <;> simp [lookupFields, Ne.symm h]

theorem lookupFields_socialPart (profiles : List String) (k : String)
    (h : k ≠ "sameAs") :
    lookupFields (socialPart profiles) k = none := by
  unfold socialPart
  split <;> simp [lookupFields, Ne.symm h]

theorem golfBase_addprop (c : GolfCourseSchema) :
    lookupFields (golfBase c) "additionalProperty" = none := rfl

theorem golfBase_image (c : GolfCourseSchema) :
    lookupFields (golfBase c) "image" = none := rfl

/-- The prefix of the serialized course object before
`additionalProperty` never contains that key. -/
theorem golf_prefix_addprop_none (c : GolfCourseSchema) :
    lookupFields (((golfBase c ++ imagePart c.images) ++ hoursPart c.opening_hours)
      ++ amenitiesPart c) "additionalProperty" = none := by
  rw [lookupFields_append_left_none _ _ (by
    rw [lookupFields_append_left_none _ _ (by
      rw [lookupFields_append_left_none _ _ (golfBase_addprop c)]
      exact lookupFields_imagePart _ _ (by decide))]
    exact lookupFields_hoursPart _ _ (by decide))]
  exact lookupFields_amenitiesPart _ _ (by decide)

/-- When the specs dict is non-empty, `to_json` binds
`additionalProperty` to the built property array. -/
theorem golf_lookup_addprop_some (c : GolfCourseSchema) (s : CourseSpecs)
    (h : c.course_specs = some s) :
    Json.lookup c.to_json "additionalProperty" =
      some (.arr c.build_course_properties) := by
  show lookupFields _ _ = _
  apply lookupFields_append_left_some
  rw [lookupFields_append_left_none _ _ (golf_prefix_addprop_none c)]
  simp [propsPart, h, lookupFields]

/-- When the specs dict is empty, `to_json` has no `additionalProperty`
key. -/
theorem golf_lookup_addprop_none (c : GolfCourseSchema)
    (h : c.course_specs = none) :
    Json.lookup c.to_json "additionalProperty" = none := by
  show lookupFields _ _ = _
  rw [lookupFields_append_left_none _ _ (by
    rw [lookupFields_append_left_none _ _ (golf_prefix_addprop_none c)]
    simp [propsPart, h, lookupFields])]
  exact lookupFields_socialPart _ _ (by decide)

/-- Serializing after `set_course_specs` yields exactly the seven
guarded segments, with the call's arguments substituted. -/
theorem build_specs (c : GolfCourseSchema) (par holes : Int) (rating : ℚ)
    (slope : Int) (ly : Option Int) (ar : Option String) (est : Option Int) :
    (c.set_course_specs par holes rating slope ly ar est).build_course_properties =
      (if par ≠ 0 then [propertyValue "Par" (toString par)] else [])
      ++ (if holes ≠ 0 then [propertyValue "Holes" (toString holes)] else [])
      ++ (if truthyOptInt ly then
            [propertyValue "Length" (toString (ly.getD 0)),
             propertyValue "Length Unit" "yards"] else [])
      ++ (if rating ≠ 0 then [propertyValue "Course Rating" (pyFloatStr rating)] else [])
      ++ (if slope ≠ 0 then [propertyValue "Slope Rating" (toString slope)] else [])
      ++ (if truthyOptStr ar then [propertyValue "Course Architect" (ar.getD "")] else [])
      ++ (if truthyOptInt est then
            [propertyValue "Established" (toString (est.getD 0))] else []) := rfl

theorem propNames_append (l₁ l₂ : List Json) :
    propNames (l₁ ++ l₂) = propNames l₁ ++ propNames l₂ :=
  List.filterMap_append l₁ l₂ _

theorem mem_propNames_ite (a : String) (p : Prop) [Decidable p] (l : List Json) :
    a ∈ propNames (if p then l else []) ↔ p ∧ a ∈ propNames l := by
  split
  case isTrue h => simp [h]
  case isFalse h => simp [h, propNames]

theorem propNames_single (n v : String) : propNames [propertyValue n v] = [n] := rfl

theorem jsonName_propertyValue (n v : String) :
    jsonName (propertyValue n v) = some n := rfl

theorem propNames_length_pair (x : String) :
    propNames [propertyValue "Length" x, propertyValue "Length Unit" "yards"]
      = ["Length", "Length Unit"] := rfl

/-- C1, counterexample: for the spec's end-to-end example builder
(`pineValley`) the `additionalProperty` array does not have 5 entries
as the claim states — it has 4. -/
theorem C1_counterexample :
    (Json.lookup pineValley.to_json "additionalProperty").map Json.arrLen ≠ some 5 := by
  have h : (Json.lookup pineValley.to_json "additionalProperty").map Json.arrLen
      = some 4 := rfl
  rw [h]
  decide

/-- C1 (amended): the end-to-end example builder produces an
`additionalProperty` array of exactly 4 entries, in the fixed order
Par, Holes, Course Rating, Slope Rating, with Length and Length Unit
omitted because `lengthYards` is unset. -/
theorem C1_course_properties :
    Json.lookup pineValley.to_json "additionalProperty" =
      some (.arr [propertyValue "Par" "72", propertyValue "Holes" "18",
                  propertyValue "Course Rating" "76.5",
                  propertyValue "Slope Rating" "147"]) := rfl

/-- C3: for each of the four builders, in any state, serializing
returns the state unchanged, and serializing twice with no intervening
mutation yields equal results. -/
theorem C3_serialization_idempotent (c : GolfCourseSchema) (r : ReviewSchema)
    (b : BreadcrumbSchema) (t : TeeTimeEventSchema) :
    (c.to_json_run.1 = c ∧ c.to_json_run.1.to_json_run.2 = c.to_json_run.2)
    ∧ (r.to_json_run.1 = r ∧ r.to_json_run.1.to_json_run.2 = r.to_json_run.2)
    ∧ (b.to_json_run.1 = b ∧ b.to_json_run.1.to_json_run.2 = b.to_json_run.2)
    ∧ (t.to_json_run.1 = t ∧ t.to_json_run.1.to_json_run.2 = t.to_json_run.2) :=
  ⟨⟨rfl, rfl⟩, ⟨rfl, rfl⟩, ⟨rfl, rfl⟩, ⟨rfl, rfl⟩⟩

/-- C7: after `set_availability s` for any string `s`, the serialized
`offers.availability` is `"https://schema.org/" ++ s`; in particular
"OutOfStock" yields "https://schema.org/OutOfStock". -/
theorem C7_availability_passthrough (t : TeeTimeEventSchema) (s : String) :
    ((Json.lookup (t.set_availability s).to_json "offers").bind
        (fun j => Json.lookup j "availability")
      = some (.str ("https://schema.org/" ++ s)))
    ∧ ((Json.lookup (t.set_availability "OutOfStock").to_json "offers").bind
        (fun j => Json.lookup j "availability")
      = some (.str "https://schema.org/OutOfStock")) :=
  ⟨rfl, rfl⟩

/-- C8: a second `set_course_specs` call replaces the stored specs
record entirely — the resulting builder state (hence any later
serialization) depends only on the last call. -/
theorem C8_specs_overwrite (c : GolfCourseSchema)
    (p₁ h₁ : Int) (r₁ : ℚ) (s₁ : Int) (l₁ : Option Int) (a₁ : Option String)
    (e₁ : Option Int)
    (p₂ h₂ : Int) (r₂ : ℚ) (s₂ : Int) (l₂ : Option Int) (a₂ : Option String)
    (e₂ : Option Int) :
    (c.set_course_specs p₁ h₁ r₁ s₁ l₁ a₁ e₁).set_course_specs p₂ h₂ r₂ s₂ l₂ a₂ e₂
      = c.set_course_specs p₂ h₂ r₂ s₂ l₂ a₂ e₂ := rfl

/-- C2: for any builder state, `set_course_specs` with `par = 0`
yields no "Par" entry in the property array (falsy-drop policy), while
`par = 72` yields a "Par" entry with value "72" (as the first entry). -/
theorem C2_par_falsy_policy (c : GolfCourseSchema) (holes : Int) (rating : ℚ)
    (slope : Int) (ly : Option Int) (ar : Option String) (est : Option Int) :
    "Par" ∉ propNames
        ((c.set_course_specs 0 holes rating slope ly ar est).build_course_properties)
    ∧ ((c.set_course_specs 72 holes rating slope ly ar est).build_course_properties.head?
        = some (propertyValue "Par" "72")) := by
  constructor
  · rw [build_specs]
    simp [propNames_append, mem_propNames_ite, propNames_single,
      propNames_length_pair, propNames, jsonName_propertyValue]
    rintro x - (rfl | rfl) <;> simp [jsonName_propertyValue]
  · rw [build_specs]
    rfl

/-- C4: the serialized `image` field is absent when no image was added,
the bare string when exactly one was added, and the ordered list of all
added URLs when two or more were added. -/
theorem C4_image_field (c : GolfCourseSchema) :
    Json.lookup c.to_json "image" =
      match c.images with
      | [] => none
      | [u] => some (Json.str u)
      | us => some (Json.arr (us.map Json.str)) := by
  show lookupFields _ _ = _
  cases hi : c.images with
  | nil =>
      rw [lookupFields_append_left_none _ _ (by
        rw [lookupFields_append_left_none _ _ (by
          rw [lookupFields_append_left_none _ _ (by
            rw [lookupFields_append_left_none _ _ (by
              rw [lookupFields_append_left_none _ _ (golfBase_image c)]
              rfl)]
            exact lookupFields_hoursPart _ _ (by decide))]
          exact lookupFields_amenitiesPart _ _ (by decide))]
        exact lookupFields_propsPart _ _ (by decide))]
      exact lookupFields_socialPart _ _ (by decide)
  | cons u rest =>
      cases rest with
      | nil =>
          apply lookupFields_append_left_some
          apply lookupFields_append_left_some
          apply lookupFields_append_left_some
          apply lookupFields_append_left_some
          rw [lookupFields_append_left_none _ _ (golfBase_image c)]
          rfl
      | cons v rest2 =>
          apply lookupFields_append_left_some
          apply lookupFields_append_left_some
          apply lookupFields_append_left_some
          apply lookupFields_append_left_some
          rw [lookupFields_append_left_none _ _ (golfBase_image c)]
          rfl

/-- C5: `add_item` stores position = stored-item count + 1 at add time
(the new item is appended last with that position), and the concrete
two-item example yields positions 1 and 2, the second item without an
`item` key. -/
theorem C5_breadcrumb_positions (b : BreadcrumbSchema) (name : String)
    (url : Option String) :
    ((b.add_item name url).items.length = b.items.length + 1
      ∧ (b.add_item name url).items.getLast? =
          some (breadcrumbItem ((b.items.length : Int) + 1) name url))
    ∧ Json.lookup ((BreadcrumbSchema.init.add_item "Home" (some "https://x")).add_item
          "Courses" none).to_json "itemListElement" =
        some (.arr
          [.obj [("@type", Json.str "ListItem"), ("position", Json.int 1),
                 ("name", Json.str "Home"), ("item", Json.str "https://x")],
           .obj [("@type", Json.str "ListItem"), ("position", Json.int 2),
                 ("name", Json.str "Courses")]]) := by
  refine ⟨⟨?_, ?_⟩, ?_⟩
  · simp [BreadcrumbSchema.add_item]
  · simp [BreadcrumbSchema.add_item]
  · rfl

/-- C6: after three `add_review` calls on a fresh builder and
`set_aggregate_rating(4.9, 427)`, the serialized aggregate has
`reviewCount` 3 and `ratingCount` 427; in general `reviewCount` is
always the length of the stored review list. -/
theorem C6_review_counts (n u i : String)
    (h₁ b₁ : String) (rt₁ : Int) (d₁ a₁ : String)
    (h₂ b₂ : String) (rt₂ : Int) (d₂ a₂ : String)
    (h₃ b₃ : String) (rt₃ : Int) (d₃ a₃ : String) (r : ReviewSchema) :
    (aggField (((((ReviewSchema.init n u i).add_review h₁ b₁ rt₁ d₁ a₁).add_review
          h₂ b₂ rt₂ d₂ a₂).add_review h₃ b₃ rt₃ d₃ a₃).set_aggregate_rating
          (.float dec49) 427) "reviewCount" = some (.int 3))
    ∧ (aggField (((((ReviewSchema.init n u i).add_review h₁ b₁ rt₁ d₁ a₁).add_review
          h₂ b₂ rt₂ d₂ a₂).add_review h₃ b₃ rt₃ d₃ a₃).set_aggregate_rating
          (.float dec49) 427) "ratingCount" = some (.int 427))
    ∧ (aggField r "reviewCount" = some (.int (r.reviews.length : Int))) :=
  ⟨rfl, rfl, rfl⟩

/-- C9: while `set_aggregate_rating` has never been called (the
constructor defaults are still in place, and `add_review` does not
touch them), the serialized `aggregateRating` still appears, with
`ratingValue` the string "0", `ratingCount` the number 0, and the fixed
bounds "5"/"1". -/
theorem C9_default_aggregate (r : ReviewSchema)
    (hv : r.rating_value = PyNum.int 0) (hc : r.rating_count = 0)
    (h b : String) (rt : Int) (d a : String) :
    aggField r "ratingValue" = some (.str "0")
    ∧ aggField r "ratingCount" = some (.int 0)
    ∧ aggField r "bestRating" = some (.str "5")
    ∧ aggField r "worstRating" = some (.str "1")
    ∧ (r.add_review h b rt d a).rating_value = r.rating_value
    ∧ (r.add_review h b rt d a).rating_count = r.rating_count := by
  refine ⟨?_, ?_, rfl, rfl, rfl, rfl⟩
  · have h1 : aggField r "ratingValue" = some (.str r.rating_value.str) := rfl
    rw [h1, hv]
    rfl
  · have h2 : aggField r "ratingCount" = some (.int r.rating_count) := rfl
    rw [h2, hc]

/-- C9, witness: the fresh builder instantiates the theorem. -/
theorem C9_witness :
    aggField (ReviewSchema.init "a" "b" "c") "ratingValue" = some (.str "0")
    ∧ aggField (ReviewSchema.init "a" "b" "c") "ratingCount" = some (.int 0)
    ∧ aggField (ReviewSchema.init "a" "b" "c") "bestRating" = some (.str "5")
    ∧ aggField (ReviewSchema.init "a" "b" "c") "worstRating" = some (.str "1")
    ∧ ((ReviewSchema.init "a" "b" "c").add_review "h" "w" 5 "d" "p").rating_value
        = (ReviewSchema.init "a" "b" "c").rating_value
    ∧ ((ReviewSchema.init "a" "b" "c").add_review "h" "w" 5 "d" "p").rating_count
        = (ReviewSchema.init "a" "b" "c").rating_count :=
  C9_default_aggregate (ReviewSchema.init "a" "b" "c") rfl rfl "h" "w" 5 "d" "p"

/-- C10: calling `set_course_specs` with every value falsy leaves the
`additionalProperty` key present and bound to the empty list (the key's
presence is decided by the specs dict being non-empty, each entry being
dropped individually), while the key is absent when `set_course_specs`
was never called. -/
theorem C10_addprop_presence (c : GolfCourseSchema) (ly : Option Int)
    (ar : Option String) (est : Option Int)
    (hly : truthyOptInt ly = false) (har : truthyOptStr ar = false)
    (hest : truthyOptInt est = false) :
    Json.lookup (c.set_course_specs 0 0 0 0 ly ar est).to_json "additionalProperty"
        = some (.arr [])
    ∧ (c.course_specs = none → Json.lookup c.to_json "additionalProperty" = none) := by
  constructor
  · rw [golf_lookup_addprop_some _ ⟨0, 0, 0, 0, ly, ar, est⟩ rfl, build_specs]
    simp [hly, har, hest]
  · exact golf_lookup_addprop_none c

/-- C10, witness: a fresh builder with all-falsy specs instantiates the
theorem. -/
theorem C10_witness :
    Json.lookup ((GolfCourseSchema.init "n" "u" "t" "e" "s" "ci" "st" "p" 1 2).set_course_specs
        0 0 0 0 none none none).to_json "additionalProperty" = some (.arr [])
    ∧ ((GolfCourseSchema.init "n" "u" "t" "e" "s" "ci" "st" "p" 1 2).course_specs = none →
        Json.lookup (GolfCourseSchema.init "n" "u" "t" "e" "s" "ci" "st" "p" 1 2).to_json
          "additionalProperty" = none) :=
  C10_addprop_presence (GolfCourseSchema.init "n" "u" "t" "e" "s" "ci" "st" "p" 1 2)
    none none none rfl rfl rfl
